import Mathlib

/-!
Verification of the M350 ArenaView log-monitoring and capture engine.

The definitions below are a shallow embedding of the Python sources:
`src/log_monitor.py` (class `LogMonitor`: incremental log reading and
powder/layer event handling) and `camera_controller.py` (class
`CameraController`: device acquisition with retries, image capture and
saving).  Side effects (capture calls, sleeps, warnings, directory
creation, error logs) are reified as an explicit action trace; wall-clock
time is an explicit rational clock advanced only by `time.sleep` calls;
the camera and the device-discovery call are oracles indexed by call
number.
-/

namespace ArenaView

/-- Containment of `needle` as a contiguous sublist of `hay`. -/
def isSublistAt : List Char → List Char → Bool
  | needle, [] => needle.isEmpty
  | needle, c :: cs => needle.isPrefixOf (c :: cs) || isSublistAt needle cs

/-- Substring containment, embedding the Python operator `tok in line`. -/
def containsTok (tok line : String) : Bool :=
  isSublistAt tok.toList line.toList

/-- Digits of an ASCII numeral folded into a natural number. -/
def digitsToNat (cs : List Char) : Nat :=
  cs.foldl (fun a c => a * 10 + (c.toNat - '0'.toNat)) 0

/-- Embedding of Python `int(s)` as used on log tokens: surrounding
whitespace is stripped, an optional sign is allowed, the remainder must be
a nonempty run of ASCII digits; any other shape raises `ValueError`,
modelled as `none`. -/
def pyInt (tok : List Char) : Option Int :=
  let cs := (((tok.dropWhile Char.isWhitespace).reverse.dropWhile
      Char.isWhitespace).reverse)
  match cs with
  | [] => none
  | '+' :: ds =>
      if ds ≠ [] ∧ ds.all Char.isDigit then some (digitsToNat ds) else none
  | '-' :: ds =>
      if ds ≠ [] ∧ ds.all Char.isDigit then some (-(digitsToNat ds : Int))
      else none
  | ds =>
      if ds ≠ [] ∧ ds.all Char.isDigit then some (digitsToNat ds) else none

/-- Splitting on every occurrence of a single separator character, as
Python `str.split(" ")` does: adjacent separators produce empty tokens
and the empty text yields one empty token. -/
def splitOnChar (sep : Char) : List Char → List (List Char)
  | [] => [[]]
  | c :: cs =>
      if c = sep then [] :: splitOnChar sep cs
      else
        match splitOnChar sep cs with
        | [] => [[c]]
        | l :: ls => (c :: l) :: ls

/-- Embedding of `int(line.split(" ")[2])` from
`LogMonitor._handle_layer_change`: a missing third token raises
`IndexError`, a malformed one `ValueError`, both modelled as `none`. -/
def layerFromLine (line : String) : Option Int :=
  match (splitOnChar ' ' line.toList).get? 2 with
  | none => none
  | some tok => pyInt tok

/-- True when `_process_line` takes the powder branch on this line: the
`elif` means the deposition token fires only when the burn token is
absent. -/
def isPowderLine (line : String) : Bool :=
  !containsTok "Прожиг" line && containsTok "Отсыпка" line

/-- True when the line contains the burn token and its layer field
parses, i.e. `_handle_layer_change` succeeds on it. -/
def isGoodBurnLine (line : String) : Bool :=
  containsTok "Прожиг" line && (layerFromLine line).isSome

/-- Static configuration handed to `LogMonitor.__init__`. -/
structure Config where
  saveRoot : String
  partName : String
  projectName : String
  captureDelay : ℚ
deriving DecidableEq

/-- Target of capture #1: `Path(self.save_root) / self.part_name / "Отсыпка"`. -/
def powderDirOf (c : Config) : String :=
  c.saveRoot ++ "/" ++ c.partName ++ "/" ++ "Отсыпка"

/-- Target of capture #2: `Path(self.save_root) / self.part_name / "Старт"`. -/
def startDirOf (c : Config) : String :=
  c.saveRoot ++ "/" ++ c.partName ++ "/" ++ "Старт"

/-- Mutable monitor state: `self.last_layer` (initially `-1`), an explicit
clock advanced only by `time.sleep`, and the index of the next camera
call (the camera oracle is consulted at this index). -/
structure MonState where
  lastLayer : Int
  clock : ℚ
  capIdx : Nat
deriving DecidableEq

/-- The monitor's initial state: `self.last_layer = -1`. -/
def initState : MonState := ⟨-1, 0, 0⟩

/-- Reified side effects of `LogMonitor` event handling. -/
inductive Act where
  /-- the `last_layer < -1` guard fired: warning, no capture -/
  | warnInvalidLayer : Act
  /-- `mkdir(parents=True, exist_ok=True)` on a target directory -/
  | mkdirAct (dir : String) : Act
  /-- one `camera.capture_image(dir, layer, project)` call, stamped with
  the clock at which it was issued and the boolean it returned -/
  | captureAct (dir : String) (layer : Int) (time : ℚ) (result : Bool) : Act
  /-- `time.sleep(self.capture_delay)` -/
  | sleepAct (d : ℚ) : Act
  /-- debug record of `last_layer` being updated by a burn line -/
  | layerSet (n : Int) : Act
  /-- `_handle_layer_change` logged a parse failure and re-raised -/
  | parseErr (line : String) : Act
  /-- the catch-all of `_process_line` logged "Error processing log line" -/
  | lineError (line : String) : Act
deriving DecidableEq

/-- Embedding of `LogMonitor._handle_powder_event`.  The returned flag is
true when the handler raised (`RuntimeError` after a failed capture),
which the caller `_process_line` catches.  The camera oracle `cam` gives
the boolean result of each successive `capture_image` call. -/
def handlePowderEvent (c : Config) (cam : Nat → Bool) (s : MonState) :
    MonState × List Act × Bool :=
  if s.lastLayer < -1 then (s, [.warnInvalidLayer], false)
  else
    let cur := s.lastLayer + 1
    let dirs : List Act := [.mkdirAct (powderDirOf c), .mkdirAct (startDirOf c)]
    let r1 := cam s.capIdx
    let s1 : MonState := { s with capIdx := s.capIdx + 1 }
    let cap1 := Act.captureAct (powderDirOf c) cur s.clock r1
    if r1 then
      let s2 : MonState := { s1 with clock := s1.clock + c.captureDelay }
      let r2 := cam s1.capIdx
      let s3 : MonState := { s2 with capIdx := s2.capIdx + 1 }
      let cap2 := Act.captureAct (startDirOf c) cur s2.clock r2
      (s3, dirs ++ [cap1, .sleepAct c.captureDelay, cap2], !r2)
    else (s1, dirs ++ [cap1], true)

/-- Embedding of `LogMonitor._handle_layer_change`: on a successful parse
`self.last_layer` is overwritten; on `IndexError`/`ValueError` the error
is logged and re-raised (flag true). -/
def handleLayerChange (line : String) (s : MonState) :
    MonState × List Act × Bool :=
  match layerFromLine line with
  | some n => ({ s with lastLayer := n }, [.layerSet n], false)
  | none => (s, [.parseErr line], true)

/-- Embedding of `LogMonitor._process_line`: burn token checked first,
deposition token in the `elif`; any exception from the handlers is caught
here and logged, so line processing itself never raises. -/
def processLine (c : Config) (cam : Nat → Bool) (s : MonState)
    (line : String) : MonState × List Act :=
  if containsTok "Прожиг" line then
    let r := handleLayerChange line s
    (r.1, r.2.1 ++ if r.2.2 then [.lineError line] else [])
  else if containsTok "Отсыпка" line then
    let r := handlePowderEvent c cam s
    (r.1, r.2.1 ++ if r.2.2 then [.lineError line] else [])
  else (s, [])

/-- Sequential processing of a list of lines, as the `for line in f`
loops of `_process_existing_log` and `check_for_updates` do. -/
def processLines (c : Config) (cam : Nat → Bool) (s : MonState) :
    List String → MonState × List Act
  | [] => (s, [])
  | l :: ls =>
      let r1 := processLine c cam s l
      let r2 := processLines c cam r1.1 ls
      (r2.1, r1.2 ++ r2.2)

/-- Capture calls appearing in an action trace. -/
def capturesOf (acts : List Act) : List Act :=
  acts.filter fun a => match a with | .captureAct _ _ _ _ => true | _ => false

/-- Line splitting as Python text-file iteration (`for line in f`)
performs it: each yielded line keeps its terminator, and a nonempty
trailing fragment without a terminator is yielded as well.  Text mode
translates universal newlines to `\n`, so `\n` is the only terminator
here. -/
def pyLines : List Char → List (List Char)
  | [] => []
  | c :: cs =>
      if c = '\n' then [c] :: pyLines cs
      else
        match pyLines cs with
        | [] => [[c]]
        | l :: ls => (c :: l) :: ls

/-- Embedding of the read step of `LogMonitor.check_for_updates`: seek to
`self.last_position`, iterate all remaining lines, then store `f.tell()`.
When the stored position exceeds the current file size (a truncated
file), the seek lands past end-of-file, the loop reads nothing and
`f.tell()` returns the seek position unchanged. -/
def checkForUpdates (file : List Char) (pos : Nat) :
    List (List Char) × Nat :=
  if pos ≤ file.length then (pyLines (file.drop pos), file.length)
  else ([], pos)

/-- Embedding of the read step of `LogMonitor._process_existing_log`: the
file is opened fresh and every line is iterated from offset 0, after
which `self.last_position = f.tell()` is end-of-file. -/
def processExistingLog (file : List Char) : List (List Char) × Nat :=
  (pyLines file, file.length)

/-- A session of appends interleaved with polls: each chunk is appended
to the file and then `check_for_updates` runs once.  Returns all lines
delivered to `_process_line` across the polls, and the final stored
position. -/
def runPolls (file : List Char) (pos : Nat) :
    List (List Char) → List (List Char) × Nat
  | [] => ([], pos)
  | chunk :: rest =>
      let file' := file ++ chunk
      let r := checkForUpdates file' pos
      let r' := runPolls file' r.2 rest
      (r.1 ++ r'.1, r'.2)

/-- The spec's `DomainEvent`: `LayerChanged(layer) | PowderDeposited`. -/
inductive DomainEvent where
  | layerChanged (n : Int) : DomainEvent
  | powderDeposited : DomainEvent
deriving DecidableEq

/-- Event-level view of `_process_line` over `ParserState.lastLayerIndex`
(= `self.last_layer`): a burn line with a parsing layer field yields
`LayerChanged` and overwrites the state; a deposition line yields
`PowderDeposited` unless the guard `self.last_layer < -1` of
`_handle_powder_event` drops it; all other lines yield nothing. -/
def parseStep (s : Int) (line : String) : Int × List DomainEvent :=
  if containsTok "Прожиг" line then
    match layerFromLine line with
    | some n => (n, [.layerChanged n])
    | none => (s, [])
  else if containsTok "Отсыпка" line then
    if s < -1 then (s, []) else (s, [.powderDeposited])
  else (s, [])

/-- Parser state after a list of lines. -/
def parseState (s : Int) : List String → Int
  | [] => s
  | l :: ls => parseState (parseStep s l).1 ls

/-- DomainEvents emitted over a list of lines. -/
def parseEvents (s : Int) : List String → List DomainEvent
  | [] => []
  | l :: ls => (parseStep s l).2 ++ parseEvents (parseStep s l).1 ls

/-- A file is powder-safe when no deposition line occurs before the
first successfully parsed burn line (after such a burn line the parser
state no longer depends on the state the file was entered with). -/
def powderSafe : List String → Bool
  | [] => true
  | l :: ls => if isGoodBurnLine l then true else !isPowderLine l && powderSafe ls

/-- Embedding of the loop of `CameraController._create_device_with_retries`:
attempts are numbered `0 .. nTotal-1`; `dev k` tells whether
`system.create_device()` returns a nonempty device list on attempt `k`.
Result: the 1-based attempt on which the connection succeeded (`none`
when all attempts fail), the number of retry warnings logged, and the
total seconds slept by `_countdown(self.retry_delay)` calls (a warning
and a countdown happen only when `current_attempt < self.retry_attempts`). -/
def createDeviceGo (dev : Nat → Bool) (nTotal delay : Nat) :
    List Nat → Option Nat × Nat × Nat
  | [] => (none, 0, 0)
  | attempt :: rest =>
      if dev attempt then (some (attempt + 1), 0, 0)
      else if attempt + 1 < nTotal then
        let r := createDeviceGo dev nTotal delay rest
        (r.1, r.2.1 + 1, r.2.2 + delay)
      else
        let r := createDeviceGo dev nTotal delay rest
        (r.1, r.2.1, r.2.2)

/-- The retry loop run over `range(self.retry_attempts)` as in the
source. -/
def createDeviceWithRetries (dev : Nat → Bool) (nTotal delay : Nat) :
    Option Nat × Nat × Nat :=
  createDeviceGo dev nTotal delay (List.range nTotal)

/-- Embedding of `CameraController._initialize_camera`: a `none` from the
retry loop raises `RuntimeError("Failed to initialize camera - no devices
found")`, which terminates the session; otherwise the single session
starts with the selected device. -/
def initializeCamera (dev : Nat → Bool) (nTotal delay : Nat) :
    Except String Nat :=
  match (createDeviceWithRetries dev nTotal delay).1 with
  | some k => .ok k
  | none => .error "Failed to initialize camera - no devices found"

/-- A broken-down `datetime.now()` value. -/
structure Timestamp where
  year : Nat
  month : Nat
  day : Nat
  hour : Nat
  minute : Nat
  second : Nat
  micro : Nat
deriving DecidableEq

/-- Zero padding to two digits, as `strftime` renders `%m %d %H %M %S`. -/
def pad2 (n : Nat) : String :=
  if n < 10 then "0" ++ toString n else toString n

/-- Zero padding to six digits, as `strftime` renders `%f`. -/
def pad6 (n : Nat) : String :=
  if n < 10 then "00000" ++ toString n
  else if n < 100 then "0000" ++ toString n
  else if n < 1000 then "000" ++ toString n
  else if n < 10000 then "00" ++ toString n
  else if n < 100000 then "0" ++ toString n
  else toString n

/-- The filename timestamp of `CameraController._save_image`:
`datetime.now().strftime("%Y-%m-%d_%H-%M-%S_%f")`. -/
def saveTimestamp (t : Timestamp) : String :=
  toString t.year ++ "-" ++ pad2 t.month ++ "-" ++ pad2 t.day ++ "_" ++
    pad2 t.hour ++ "-" ++ pad2 t.minute ++ "-" ++ pad2 t.second ++ "_" ++
    pad6 t.micro

/-- The output path constructed by `CameraController._save_image`:
`os.path.join(save_folder, f'{project_name}_{timestamp}_layer_{layer}.tiff')`. -/
def saveImagePath (saveFolder projectName : String) (layer : Int)
    (t : Timestamp) : String :=
  saveFolder ++ "/" ++ projectName ++ "_" ++ saveTimestamp t ++ "_layer_" ++
    toString layer ++ ".tiff"

/-- Timestamp in the format the spec claims for saved filenames,
written from the spec's words: `YYYY.MM.DD_HH:MM:SS_ffffff`. -/
def specClaimedTimestamp (t : Timestamp) : String :=
  toString t.year ++ "." ++ pad2 t.month ++ "." ++ pad2 t.day ++ "_" ++
    pad2 t.hour ++ ":" ++ pad2 t.minute ++ ":" ++ pad2 t.second ++ "_" ++
    pad6 t.micro

/-- Saved-image path in the shape the spec claims,
`{save_root}/{part_name}/{event_kind_name}/{project_name}_{timestamp}_layer_{n}.tiff`,
parameterised by the timestamp rendering. -/
def specClaimedPath (c : Config) (eventKindName : String) (layer : Int)
    (ts : String) : String :=
  c.saveRoot ++ "/" ++ c.partName ++ "/" ++ eventKindName ++ "/" ++
    c.projectName ++ "_" ++ ts ++ "_layer_" ++ toString layer ++ ".tiff"

/-- Outcomes of the fallible steps inside one `capture_image` call:
whether `device.start_stream()`, `device.get_buffer()`,
`BufferFactory.convert` and `writer.save` succeed. -/
structure CaptureEnv where
  startStreamOk : Bool
  getBufferOk : Bool
  convertOk : Bool
  writeOk : Bool
deriving DecidableEq

/-- Embedding of `CameraController._save_image`: conversion and writing
may fail, but the whole body is wrapped in `try/except Exception`, so the
method always returns normally; the result records whether the image file
was actually written. -/
def saveImageWrites (e : CaptureEnv) : Bool :=
  e.convertOk && e.writeOk

/-- Embedding of `CameraController.capture_image`: returns
`(returnValue, fileWritten)`.  A failure of `start_stream` or
`get_buffer` raises inside the `try`, is caught, and yields `False`;
once both succeed, `_save_image` is called and — since it swallows its
own errors — the method returns `True` whether or not the file was
written. -/
def captureImage (e : CaptureEnv) : Bool × Bool :=
  if e.startStreamOk then
    if e.getBufferOk then (true, saveImageWrites e)
    else (false, false)
  else (false, false)

/-- A camera oracle all of whose capture calls return `True`. -/
def camTrue : Nat → Bool := fun _ => true

/-- A camera oracle all of whose capture calls return `False`. -/
def camFalse : Nat → Bool := fun _ => false

/-- A small concrete configuration used in concrete evaluations. -/
def cfgDemo : Config := ⟨"r", "test", "job", 2⟩

/-- A concrete timestamp used in concrete evaluations. -/
def tsDemo : Timestamp := ⟨2025, 4, 23, 10, 5, 3, 123456⟩

/-- A concrete monitor state in which layer 12 was the last burn seen. -/
def st12 : MonState := ⟨12, 0, 0⟩

/-- Python line iteration loses no bytes: joining the yielded lines gives
back the text. -/
theorem pyLines_flatten (cs : List Char) : (pyLines cs).flatten = cs := by
  induction cs with
  | nil => rfl
  | cons c cs ih =>
      by_cases h : c = '\n'
      · subst h
        simp [pyLines, ih]
      · simp only [pyLines, if_neg h]
        cases hp : pyLines cs with
        | nil =>
            rw [hp] at ih
            simp only [List.flatten_nil] at ih
            simp [← ih]
        | cons l ls =>
            rw [hp] at ih
            simp only [List.flatten_cons] at ih ⊢
            rw [List.cons_append, ih]

/-- Trace of `_handle_powder_event` when the layer guard passes and the
first capture succeeds. -/
theorem handlePowderEvent_ok (c : Config) (cam : Nat → Bool) (s : MonState)
    (hl : -1 ≤ s.lastLayer) (hc : cam s.capIdx = true) :
    handlePowderEvent c cam s =
      ({ s with clock := s.clock + c.captureDelay, capIdx := s.capIdx + 1 + 1 },
       [.mkdirAct (powderDirOf c), .mkdirAct (startDirOf c),
        .captureAct (powderDirOf c) (s.lastLayer + 1) s.clock true,
        .sleepAct c.captureDelay,
        .captureAct (startDirOf c) (s.lastLayer + 1) (s.clock + c.captureDelay)
          (cam (s.capIdx + 1))],
       !cam (s.capIdx + 1)) := by
  have h1 : ¬s.lastLayer < -1 := by omega
  simp [handlePowderEvent, h1, hc]

/-- Trace of `_handle_powder_event` when the layer guard passes and the
first capture fails: one capture call, then `RuntimeError`. -/
theorem handlePowderEvent_fail (c : Config) (cam : Nat → Bool) (s : MonState)
    (hl : -1 ≤ s.lastLayer) (hc : cam s.capIdx = false) :
    handlePowderEvent c cam s =
      ({ s with capIdx := s.capIdx + 1 },
       [.mkdirAct (powderDirOf c), .mkdirAct (startDirOf c),
        .captureAct (powderDirOf c) (s.lastLayer + 1) s.clock false],
       true) := by
  have h1 : ¬s.lastLayer < -1 := by omega
  simp [handlePowderEvent, h1, hc]

/-- On a deposition line, `_process_line` defers to
`_handle_powder_event` and logs any exception it raised. -/
theorem processLine_powder (c : Config) (cam : Nat → Bool) (s : MonState)
    (line : String) (hp : isPowderLine line = true) :
    processLine c cam s line =
      ((handlePowderEvent c cam s).1,
       (handlePowderEvent c cam s).2.1 ++
         if (handlePowderEvent c cam s).2.2 then [.lineError line] else []) := by
  have h1 : containsTok "Прожиг" line = false := by
    unfold isPowderLine at hp
    cases hb : containsTok "Прожиг" line
    · rfl
    · rw [hb] at hp; simp at hp
  have h2 : containsTok "Отсыпка" line = true := by
    unfold isPowderLine at hp
    rw [h1] at hp; simpa using hp
  simp [processLine, h1, h2]

/-- On a successfully parsing burn line, `parseStep` emits
`LayerChanged` and overwrites the state, independently of the incoming
state. -/
theorem parseStep_goodBurn {line : String} {n : Int}
    (hb : containsTok "Прожиг" line = true)
    (hn : layerFromLine line = some n) (s : Int) :
    parseStep s line = (n, [.layerChanged n]) := by
  simp [parseStep, hb, hn]

/-- A line that is neither a parsing burn line nor a deposition line
leaves the parser state unchanged and emits nothing. -/
theorem parseStep_neutral {line : String}
    (hb : isGoodBurnLine line = false) (hp : isPowderLine line = false)
    (s : Int) : parseStep s line = (s, []) := by
  unfold parseStep
  by_cases h1 : containsTok "Прожиг" line
  · have hnone : layerFromLine line = none := by
      unfold isGoodBurnLine at hb
      rw [h1] at hb
      simpa [Option.isSome_iff_exists] using hb
    simp [h1, hnone]
  · have h1' : containsTok "Прожиг" line = false := by
      simpa using h1
    have h2 : containsTok "Отсыпка" line = false := by
      unfold isPowderLine at hp
      rw [h1'] at hp
      simpa using hp
    simp [h1', h2]

/-- One step of the retry loop. -/
theorem createDeviceGo_cons (dev : Nat → Bool) (N delay attempt : Nat)
    (rest : List Nat) :
    createDeviceGo dev N delay (attempt :: rest) =
      if dev attempt then (some (attempt + 1), 0, 0)
      else if attempt + 1 < N then
        ((createDeviceGo dev N delay rest).1,
         (createDeviceGo dev N delay rest).2.1 + 1,
         (createDeviceGo dev N delay rest).2.2 + delay)
      else createDeviceGo dev N delay rest := rfl

/-- The retry loop over the remaining attempts `a, a+1, ..., N-1`, when
every attempt before the last fails and the last succeeds: the session
starts on attempt `N` (1-based) with one warning and one
`retry_delay`-second countdown per failed attempt. -/
theorem createDeviceGo_success (dev : Nat → Bool) (N delay : Nat)
    (h2 : ∀ k, k + 1 < N → dev k = false) (h3 : dev (N - 1) = true) :
    ∀ m a, a + m + 1 = N →
      createDeviceGo dev N delay (List.range' a (m + 1)) =
        (some N, m, m * delay) := by
  intro m
  induction m with
  | zero =>
      intro a hN
      have ha : dev a = true := by
        have h : a = N - 1 := by omega
        rw [h]; exact h3
      have haN : a + 1 = N := by omega
      simp [List.range'_succ, createDeviceGo, ha, haN]
  | succ m ih =>
      intro a hN
      have ha : dev a = false := h2 a (by omega)
      have hlt : a + 1 < N := by omega
      rw [List.range'_succ, createDeviceGo_cons,
        if_neg (by simp [ha]), if_pos hlt, ih (a + 1) (by omega)]
      simp [Nat.succ_mul]

/-- When device discovery never succeeds, the retry loop returns `None`
whatever the attempt list. -/
theorem createDeviceGo_fail (dev : Nat → Bool) (N delay : Nat)
    (h : ∀ k, dev k = false) (l : List Nat) :
    (createDeviceGo dev N delay l).1 = none := by
  induction l with
  | nil => rfl
  | cons a rest ih =>
      by_cases hlt : a + 1 < N <;>
        simp [createDeviceGo, h a, hlt, ih]

/-- Across a session of appends and polls starting with the stored
position at end-of-file, the lines handed to `_process_line` concatenate
to exactly the appended bytes, and the stored position ends at the final
end-of-file. -/
theorem runPolls_exact (chunks : List (List Char)) :
    ∀ f : List Char,
      ((runPolls f f.length chunks).1).flatten = chunks.flatten ∧
      (runPolls f f.length chunks).2 = f.length + chunks.flatten.length := by
  induction chunks with
  | nil => intro f; simp [runPolls]
  | cons chunk rest ih =>
      intro f
      have hpoll : checkForUpdates (f ++ chunk) f.length =
          (pyLines chunk, (f ++ chunk).length) := by
        unfold checkForUpdates
        rw [if_pos (by simp), List.drop_left]
      have hrec := ih (f ++ chunk)
      simp only [runPolls, hpoll, List.length_append, List.flatten_cons] at hrec ⊢
      constructor
      · rw [List.flatten_append, hrec.1, pyLines_flatten]
      · rw [hrec.2]
        simp [List.length_append]
        omega

/-- C1: the claim states that a deposition line processed before any
layer-burn line is dropped with a warning and zero capture calls.  The
code guards with `last_layer < -1` while the unknown-layer initial value
is `-1`, so at the failing input — a deposition line arriving in the
initial state — the event is not dropped: the embedded handler performs
two capture calls at layer `0` and issues no warning. -/
theorem c1_powder_before_layer_is_captured :
    (processLine cfgDemo camTrue initState "Отсыпка\n").2 =
      [.mkdirAct (powderDirOf cfgDemo), .mkdirAct (startDirOf cfgDemo),
       .captureAct (powderDirOf cfgDemo) 0 0 true, .sleepAct 2,
       .captureAct (startDirOf cfgDemo) 0 2 true] ∧
    Act.warnInvalidLayer ∉ (processLine cfgDemo camTrue initState "Отсыпка\n").2 := by
  have h := processLine_powder cfgDemo camTrue initState "Отсыпка\n" (by decide)
  rw [handlePowderEvent_ok cfgDemo camTrue initState (by decide) rfl] at h
  rw [h]
  norm_num [initState, cfgDemo, camTrue]
  exact ⟨fun hAbs => Act.noConfusion hAbs, fun hAbs => Act.noConfusion hAbs,
    fun hAbs => Act.noConfusion hAbs, fun hAbs => Act.noConfusion hAbs,
    fun hAbs => Act.noConfusion hAbs⟩

/-- C2: with the last observed layer `n` (so the guard `n ≥ -1` holds)
and the first capture call succeeding, processing a deposition line
performs exactly two capture calls: first into
`save_root/part_name/Отсыпка` at layer `n+1`, then — the clock advanced
by exactly `capture_delay` by the blocking sleep — into
`save_root/part_name/Старт` at the same layer `n+1`. -/
theorem c2_powder_two_captures (c : Config) (cam : Nat → Bool) (s : MonState)
    (line : String) (hp : isPowderLine line = true)
    (hl : -1 ≤ s.lastLayer) (hc : cam s.capIdx = true) :
    capturesOf (processLine c cam s line).2 =
      [.captureAct (powderDirOf c) (s.lastLayer + 1) s.clock true,
       .captureAct (startDirOf c) (s.lastLayer + 1)
         (s.clock + c.captureDelay) (cam (s.capIdx + 1))] := by
  rw [processLine_powder c cam s line hp, handlePowderEvent_ok c cam s hl hc]
  cases h2 : cam (s.capIdx + 1) <;> simp [capturesOf]

/-- Witness for C2 at a concrete state where layer 12 was last seen. -/
theorem c2_powder_two_captures_witness :
    isPowderLine "Отсыпка\n" = true ∧ (-1 : Int) ≤ st12.lastLayer ∧
    camTrue st12.capIdx = true ∧
    capturesOf (processLine cfgDemo camTrue st12 "Отсыпка\n").2 =
      [.captureAct (powderDirOf cfgDemo) 13 0 true,
       .captureAct (startDirOf cfgDemo) 13 2 true] := by
  refine ⟨by decide, by decide, rfl, ?_⟩
  rw [c2_powder_two_captures cfgDemo camTrue st12 "Отсыпка\n" (by decide)
    (by decide) rfl]
  norm_num [st12, cfgDemo, camTrue]

/-- C3 counterexample: the claim states that a trailing line without a
terminator is not consumed and that the byte offset advances only past
complete lines.  On a file holding only the unterminated fragment `ab`
(no terminator anywhere), a single poll delivers the fragment as a line
and advances the offset to end-of-file. -/
theorem c3_trailing_fragment_is_consumed :
    '\n' ∉ ['a', 'b'] ∧
    (checkForUpdates ['a', 'b'] 0).1 = [['a', 'b']] ∧
    (checkForUpdates ['a', 'b'] 0).2 = 2 := by
  decide

/-- C3 amended: every poll consumes all bytes from the stored offset to
end-of-file — including an unterminated trailing fragment — and stores
the end-of-file position; across any session of appends and polls the
delivered lines concatenate exactly to the appended bytes, so every byte
is processed exactly once and in file order (a line straddling two polls
is delivered as two fragments, not redelivered whole). -/
theorem c3_poll_consumes_all_appended_bytes (f : List Char)
    (chunks : List (List Char)) :
    ((runPolls f f.length chunks).1).flatten = chunks.flatten ∧
    (runPolls f f.length chunks).2 = (f ++ chunks.flatten).length := by
  obtain ⟨h1, h2⟩ := runPolls_exact chunks f
  exact ⟨h1, by rw [h2]; simp⟩

/-- C4: the failure of a single capture call does not abort the run: the
`RuntimeError` raised by `_handle_powder_event` is caught at the
`_process_line` boundary and logged, and processing of the remaining
lines continues unchanged from the post-failure state. -/
theorem c4_capture_failure_not_fatal (c : Config) (cam : Nat → Bool)
    (s : MonState) (line : String) (ls : List String)
    (hp : isPowderLine line = true) (hl : -1 ≤ s.lastLayer)
    (hc : cam s.capIdx = false) :
    processLines c cam s (line :: ls) =
      ((processLines c cam { s with capIdx := s.capIdx + 1 } ls).1,
       [.mkdirAct (powderDirOf c), .mkdirAct (startDirOf c),
        .captureAct (powderDirOf c) (s.lastLayer + 1) s.clock false,
        .lineError line] ++
        (processLines c cam { s with capIdx := s.capIdx + 1 } ls).2) := by
  have h1 := processLine_powder c cam s line hp
  rw [handlePowderEvent_fail c cam s hl hc] at h1
  simp only [if_pos rfl] at h1
  simp [processLines, h1]

/-- Witness for C4: a failed capture on the deposition line is logged,
and the following burn line is still processed (the layer updates to 7). -/
theorem c4_capture_failure_not_fatal_witness :
    isPowderLine "Отсыпка\n" = true ∧ camFalse st12.capIdx = false ∧
    processLines cfgDemo camFalse st12 ["Отсыпка\n", "a b 7 Прожиг\n"] =
      (⟨7, 0, 1⟩,
       [.mkdirAct (powderDirOf cfgDemo), .mkdirAct (startDirOf cfgDemo),
        .captureAct (powderDirOf cfgDemo) 13 0 false, .lineError "Отсыпка\n",
        .layerSet 7]) := by
  refine ⟨by decide, rfl, ?_⟩
  rw [c4_capture_failure_not_fatal cfgDemo camFalse st12 "Отсыпка\n"
    ["a b 7 Прожиг\n"] (by decide) (by decide) rfl]
  have hb : containsTok "Прожиг" "a b 7 Прожиг\n" = true := by decide
  have hl7 : layerFromLine "a b 7 Прожиг\n" = some 7 := by decide
  norm_num [processLines, processLine, handleLayerChange, hb, hl7, st12]

/-- C5 counterexample: the claim states that a poll seeing
`fileSize < byteOffset` resets the offset to 0 and reprocesses the whole
file.  With a one-byte file and a stored offset of 5, the poll delivers
nothing and leaves the offset at 5: there is no truncation detection. -/
theorem c5_truncation_reset_missing :
    ['x'].length < 5 ∧ (checkForUpdates ['x'] 5).2 = 5 ∧
    (checkForUpdates ['x'] 5).1 = [] := by
  decide

/-- C5 amended: the byte offset is monotonically non-decreasing across
polls unconditionally; when the file is shorter than the stored offset
the poll reads nothing and keeps the offset unchanged (no reset to 0, no
reprocessing). -/
theorem c5_offset_monotone (f : List Char) (p : Nat) :
    p ≤ (checkForUpdates f p).2 ∧
    (f.length < p → checkForUpdates f p = ([], p)) := by
  unfold checkForUpdates
  by_cases h : p ≤ f.length
  · rw [if_pos h]
    exact ⟨h, fun hlt => absurd h (by omega)⟩
  · rw [if_neg h]
    exact ⟨le_refl p, fun _ => rfl⟩

/-- Witness for C5 at the truncated-file input. -/
theorem c5_offset_monotone_witness :
    5 ≤ (checkForUpdates ['x'] 5).2 ∧ checkForUpdates ['x'] 5 = ([], 5) :=
  ⟨(c5_offset_monotone ['x'] 5).1, (c5_offset_monotone ['x'] 5).2 (by decide)⟩

/-- C6: the first read after startup (`_process_existing_log`) processes
the entire existing file content from byte offset 0 — the delivered lines
concatenate to the whole file — and leaves the stored position at
end-of-file; it does not seek to the end. -/
theorem c6_startup_reads_from_zero (f : List Char) :
    ((processExistingLog f).1).flatten = f ∧
    (processExistingLog f).2 = f.length :=
  ⟨pyLines_flatten f, rfl⟩

/-- C7 counterexample: the claim states that reprocessing the same file
from offset 0 twice, carrying the parser state over, yields the same
DomainEvent sequence.  On a file whose deposition line precedes its only
burn line and whose burn layer is `-2`, the first pass (from the initial
state `-1`) emits `PowderDeposited` but the second pass (from the
carried state `-2`) drops it. -/
theorem c7_reprocessing_differs :
    parseEvents (-1) ["Отсыпка\n", "a b -2 Прожиг\n"] ≠
      parseEvents (parseState (-1) ["Отсыпка\n", "a b -2 Прожиг\n"])
        ["Отсыпка\n", "a b -2 Прожиг\n"] := by
  decide

/-- C7 amended: reprocessing the same file from offset 0 with the parser
state carried over yields the same DomainEvent sequence provided no
deposition line precedes the first successfully parsed burn line (after
such a burn line both passes agree on the parser state). -/
theorem c7_idempotent_when_burn_first (s : Int) (ls : List String)
    (h : powderSafe ls = true) :
    parseEvents s ls = parseEvents (parseState s ls) ls := by
  induction ls generalizing s with
  | nil => rfl
  | cons l ls ih =>
      by_cases hb : isGoodBurnLine l = true
      · have hc : containsTok "Прожиг" l = true := by
          unfold isGoodBurnLine at hb
          exact (Bool.and_eq_true _ _).mp hb |>.1
        have hn : (layerFromLine l).isSome := by
          unfold isGoodBurnLine at hb
          exact (Bool.and_eq_true _ _).mp hb |>.2
        obtain ⟨n, hn2⟩ := Option.isSome_iff_exists.mp hn
        simp [parseEvents, parseState, parseStep_goodBurn hc hn2]
      · have hb2 : isGoodBurnLine l = false := by simpa using hb
        unfold powderSafe at h
        rw [hb2] at h
        simp only [Bool.false_eq_true, if_false, Bool.and_eq_true,
          Bool.not_eq_true'] at h
        simp only [parseEvents, parseState, parseStep_neutral hb2 h.1,
          List.nil_append]
        exact ih _ h.2

/-- Witness for C7 on a file whose burn line comes first. -/
theorem c7_idempotent_witness :
    powderSafe ["a b 3 Прожиг\n", "Отсыпка\n"] = true ∧
    parseEvents (-1) ["a b 3 Прожиг\n", "Отсыпка\n"] =
      parseEvents (parseState (-1) ["a b 3 Прожиг\n", "Отсыпка\n"])
        ["a b 3 Прожиг\n", "Отсыпка\n"] :=
  ⟨by decide, c7_idempotent_when_burn_first (-1) _ (by decide)⟩

/-- C8: when device discovery fails on attempts `1..N-1` and succeeds on
attempt `N`, exactly one session starts (on attempt `N`) with exactly
`N-1` retry warnings, each followed by the fixed `retry_delay`-second
inter-attempt countdown; when all `N` attempts fail,
`_initialize_camera` raises the fatal device-unavailable error that
terminates the session. -/
theorem c8_retry_acquisition (dev : Nat → Bool) (N delay : Nat)
    (h1 : 1 ≤ N) (h2 : ∀ k, k + 1 < N → dev k = false)
    (h3 : dev (N - 1) = true) :
    createDeviceWithRetries dev N delay = (some N, N - 1, (N - 1) * delay) ∧
    initializeCamera dev N delay = .ok N ∧
    ∀ dev' : Nat → Bool, (∀ k, dev' k = false) →
      initializeCamera dev' N delay =
        .error "Failed to initialize camera - no devices found" := by
  have key : createDeviceWithRetries dev N delay =
      (some N, N - 1, (N - 1) * delay) := by
    unfold createDeviceWithRetries
    rw [List.range_eq_range']
    obtain ⟨m, rfl⟩ : ∃ m, N = m + 1 := ⟨N - 1, by omega⟩
    rw [createDeviceGo_success dev (m + 1) delay h2 h3 m 0 (by omega)]
    simp
  refine ⟨key, ?_, ?_⟩
  · unfold initializeCamera
    rw [key]
  · intro dev' h'
    unfold initializeCamera createDeviceWithRetries
    rw [createDeviceGo_fail dev' N delay h' (List.range N)]

/-- Witness for C8 with `N = 3`, `delay = 10`: failures on attempts 1
and 2, success on attempt 3, giving 2 warnings and 20 seconds of
countdown; and the all-fail oracle raising the fatal error. -/
theorem c8_retry_acquisition_witness :
    (1 : Nat) ≤ 3 ∧
    createDeviceWithRetries (fun k => decide (k = 2)) 3 10 = (some 3, 2, 20) ∧
    initializeCamera (fun k => decide (k = 2)) 3 10 = .ok 3 ∧
    initializeCamera (fun _ => false) 3 10 =
      .error "Failed to initialize camera - no devices found" := by
  have h := c8_retry_acquisition (fun k => decide (k = 2)) 3 10 (by decide)
    (by
      intro k hk
      have hk2 : k = 0 ∨ k = 1 := by omega
      rcases hk2 with rfl | rfl <;> rfl)
    rfl
  exact ⟨by decide, h.1.trans (by decide), h.2.1,
    h.2.2 (fun _ => false) (fun _ => rfl)⟩

/-- C9 counterexample: the claim states the filename timestamp has the
format `YYYY.MM.DD_HH:MM:SS_ffffff`; `_save_image` renders
`%Y-%m-%d_%H-%M-%S_%f`, so at a concrete capture the actual saved path
differs from the claimed-format path. -/
theorem c9_timestamp_format_differs :
    saveImagePath (powderDirOf cfgDemo) cfgDemo.projectName 13 tsDemo ≠
      specClaimedPath cfgDemo "Отсыпка" 13 (specClaimedTimestamp tsDemo) := by
  decide

/-- C9 amended: every capture performed for a deposition event targets
one of the two fixed localized directories, and the file it saves lands
at `{save_root}/{part_name}/{Отсыпка|Старт}/{project_name}_{timestamp}_layer_{n}.tiff`
where the timestamp format is `YYYY-MM-DD_HH-MM-SS_ffffff` (dashes, as
rendered by the code) rather than `YYYY.MM.DD_HH:MM:SS_ffffff`. -/
theorem c9_saved_path_shape (c : Config) (cam : Nat → Bool) (s : MonState)
    (line : String) (t : Timestamp) (hp : isPowderLine line = true)
    (hl : -1 ≤ s.lastLayer) (hc : cam s.capIdx = true) :
    capturesOf (processLine c cam s line).2 =
      [.captureAct (powderDirOf c) (s.lastLayer + 1) s.clock true,
       .captureAct (startDirOf c) (s.lastLayer + 1)
         (s.clock + c.captureDelay) (cam (s.capIdx + 1))] ∧
    saveImagePath (powderDirOf c) c.projectName (s.lastLayer + 1) t =
      specClaimedPath c "Отсыпка" (s.lastLayer + 1) (saveTimestamp t) ∧
    saveImagePath (startDirOf c) c.projectName (s.lastLayer + 1) t =
      specClaimedPath c "Старт" (s.lastLayer + 1) (saveTimestamp t) := by
  refine ⟨?_, rfl, rfl⟩
  rw [processLine_powder c cam s line hp, handlePowderEvent_ok c cam s hl hc]
  cases h2 : cam (s.capIdx + 1) <;> simp [capturesOf]

/-- Witness for C9 at a concrete configuration and timestamp. -/
theorem c9_saved_path_shape_witness :
    isPowderLine "Отсыпка\n" = true ∧
    saveImagePath (powderDirOf cfgDemo) cfgDemo.projectName
        (st12.lastLayer + 1) tsDemo =
      specClaimedPath cfgDemo "Отсыпка" (st12.lastLayer + 1)
        (saveTimestamp tsDemo) :=
  ⟨by decide, (c9_saved_path_shape cfgDemo camTrue st12 "Отсыпка\n" tsDemo
    (by decide) (by decide) rfl).2.1⟩

/-- C10: `capture_image` returns `True` whenever `start_stream` and
`get_buffer` succeed, because `_save_image` swallows its own errors; in
particular with a failing write step it still returns `True` while no
image file is written. -/
theorem c10_capture_true_without_write (e : CaptureEnv)
    (h1 : e.startStreamOk = true) (h2 : e.getBufferOk = true) :
    (captureImage e).1 = true ∧
    captureImage ⟨true, true, true, false⟩ = (true, false) := by
  refine ⟨?_, rfl⟩
  simp [captureImage, h1, h2]

/-- Witness for C10 at the save-fails environment. -/
theorem c10_capture_true_without_write_witness :
    (captureImage ⟨true, true, true, false⟩).1 = true ∧
    captureImage ⟨true, true, true, false⟩ = (true, false) :=
  c10_capture_true_without_write ⟨true, true, true, false⟩ rfl rfl

end ArenaView
